/-
Verification of the SU2 excerpt consisting of
  SU2_CFD/src/fluid/CFluidCantera.cpp   (multicomponent fluid property model)
  SU2_CFD/src/python_wrapper_structure.cpp   (scripting accessor surface)
against its natural language specification.

The C++ classes are shallowly embedded: the mutable object state of
CFluidCantera becomes a Lean structure and each member function becomes a
state passing function; su2double and passivedouble are modelled as real
numbers; a call to SU2_MPI Error (which aborts the program) is modelled by
the error case of Except.  Per species strategy objects (viscosity,
conductivity and diffusivity laws, whose classes are not part of the
excerpt) are modelled as abstract function valued fields that the mixing
routines invoke, exactly as the source only ever calls SetViscosity and
GetViscosity on them.
-/
import Mathlib

set_option linter.unusedVariables false

noncomputable section

/-- Result tester for the Except monad: true exactly on the error case. -/
def isErr {ε α : Type} : Except ε α → Bool
  | Except.error _ => true
  | Except.ok _ => false

/-- Mixing viscosity model selector of the configuration.  The source file
only mentions the WILKE and DAVIDSON members; a further member stands for
any other configured value, which the code of SetTDState_T leaves
unhandled. -/
inductive MIXINGVISCOSITYMODEL : Type
  | NONE
  | WILKE
  | DAVIDSON
deriving DecidableEq

/-- Configuration slice read by the CFluidCantera constructor (CConfig in
the source).  The per species strategy factories and the compile time
constant ARRAYSIZE live in headers outside the excerpt, so they appear here
as abstract fields. -/
structure CFluidConfig where
  nSpecies : ℕ
  Gamma : ℝ
  Gas_Constant_Ref : ℝ
  Prandtl_Turb : ℝ
  Kind_MixingViscosityModel : MIXINGVISCOSITYMODEL
  Molecular_Weight : ℕ → ℝ
  Specific_Heat_CpND : ℕ → ℝ
  LaminarViscosityModel : ℕ → ℝ → ℝ → ℝ
  ThermalConductivityModel : ℕ → ℝ → ℝ → ℝ → ℝ
  MassDiffusivityModel : ℕ → ℝ → ℝ → ℝ → ℝ → ℝ
  ARRAYSIZE : ℕ

/-- Object state of CFluidCantera.  Arrays of size ARRAYSIZE are modelled
as functions on ℕ; only indices below n_species_mixture are ever read by
the member functions.  The three pointer arrays hold the per species
strategy laws: a viscosity law maps (temperature, density) to a viscosity,
a conductivity law maps (temperature, density, viscosity) to a
conductivity (the four trailing turbulence arguments of SetConductivity
are always 0 at the call site and are omitted), a diffusivity law maps
(density, viscosity, cp, kt) to a diffusivity. -/
structure CFluidCantera where
  n_species_mixture : ℕ
  Gas_Constant : ℝ
  Gamma : ℝ
  Pressure_Thermodynamic : ℝ
  GasConstant_Ref : ℝ
  Prandtl_Number : ℝ
  wilke : Bool
  davidson : Bool
  molarMasses : ℕ → ℝ
  specificHeat : ℕ → ℝ
  massFractions : ℕ → ℝ
  moleFractions : ℕ → ℝ
  laminarViscosity : ℕ → ℝ
  laminarThermalConductivity : ℕ → ℝ
  massDiffusivity : ℕ → ℝ
  LaminarViscosityPointers : ℕ → ℝ → ℝ → ℝ
  ThermalConductivityPointers : ℕ → ℝ → ℝ → ℝ → ℝ
  MassDiffusivityPointers : ℕ → ℝ → ℝ → ℝ → ℝ → ℝ
  Temperature : ℝ
  Density : ℝ
  Cp : ℝ
  Cv : ℝ
  Mu : ℝ
  Kt : ℝ

/-- State produced by a successful run of the constructor body: members
from the initializer list, the guarded species loop filling molarMasses
and specificHeat, and the three Set...Model loops filling the strategy
arrays.  Members inherited from CFluidModel and not initialized in the
excerpt start at 0. -/
def constructedState (val_Cp val_gas_constant value_pressure_operating : ℝ)
    (config : CFluidConfig) : CFluidCantera :=
  { n_species_mixture := config.nSpecies + 1
    Gas_Constant := val_gas_constant
    Gamma := config.Gamma
    Pressure_Thermodynamic := value_pressure_operating
    GasConstant_Ref := config.Gas_Constant_Ref
    Prandtl_Number := config.Prandtl_Turb
    wilke := decide (config.Kind_MixingViscosityModel = MIXINGVISCOSITYMODEL.WILKE)
    davidson := decide (config.Kind_MixingViscosityModel = MIXINGVISCOSITYMODEL.DAVIDSON)
    molarMasses := config.Molecular_Weight
    specificHeat := config.Specific_Heat_CpND
    massFractions := fun _ => 0
    moleFractions := fun _ => 0
    laminarViscosity := fun _ => 0
    laminarThermalConductivity := fun _ => 0
    massDiffusivity := fun _ => 0
    LaminarViscosityPointers := config.LaminarViscosityModel
    ThermalConductivityPointers := config.ThermalConductivityModel
    MassDiffusivityPointers := config.MassDiffusivityModel
    Temperature := 0
    Density := 0
    Cp := 0
    Cv := 0
    Mu := 0
    Kt := 0 }

/-- Constructor CFluidCantera::CFluidCantera.  It aborts through
SU2_MPI::Error when the mixture species count n_species_mixture =
GetnSpecies() + 1 exceeds ARRAYSIZE, and otherwise fills the per species
arrays from the configuration. -/
def CFluidCantera.construct (val_Cp val_gas_constant value_pressure_operating : ℝ)
    (config : CFluidConfig) : Except String CFluidCantera :=
  if config.ARRAYSIZE < config.nSpecies + 1 then
    Except.error "Too many species, increase ARRAYSIZE"
  else
    Except.ok (constructedState val_Cp val_gas_constant value_pressure_operating config)

/-- CFluidCantera::MassToMoleFractions: stores the first n-1 mass
fractions from the scalar inputs, closes the composition with
massFractions[n-1] = 1 - sum, and renormalizes by molar mass to obtain the
mole fractions. -/
def CFluidCantera.MassToMoleFractions (c : CFluidCantera) (val_scalars : ℕ → ℝ) :
    CFluidCantera :=
  let n := c.n_species_mixture
  let val_scalars_sum : ℝ := ∑ i ∈ Finset.range (n - 1), val_scalars i
  let mf : ℕ → ℝ := fun i =>
    if i < n - 1 then val_scalars i
    else if i = n - 1 then 1 - val_scalars_sum
    else c.massFractions i
  let mixtureMolarMass : ℝ := ∑ i ∈ Finset.range n, mf i / c.molarMasses i
  let mole : ℕ → ℝ := fun i =>
    if i < n then (mf i / c.molarMasses i) / mixtureMolarMass else c.moleFractions i
  { c with massFractions := mf, moleFractions := mole }

/-- Universal gas constant appearing in ComputeGasConstant; its numeric
value comes from a header outside the excerpt and no claim depends on
it. -/
def UNIVERSAL_GAS_CONSTANT : ℝ := 8314.462618

/-- CFluidCantera::ComputeGasConstant, as the value it assigns to the
Gas_Constant member and returns. -/
def CFluidCantera.ComputeGasConstant (c : CFluidCantera) : ℝ :=
  let MeanMolecularWeight : ℝ :=
    ∑ i ∈ Finset.range c.n_species_mixture, c.moleFractions i * c.molarMasses i / 1000
  UNIVERSAL_GAS_CONSTANT / (c.GasConstant_Ref * MeanMolecularWeight)

/-- CFluidCantera::ComputeMeanSpecificHeatCp: mass fraction weighted mean
of the per species specific heats (the scalar argument of the source is
unused there as well). -/
def CFluidCantera.ComputeMeanSpecificHeatCp (c : CFluidCantera) (val_scalars : ℕ → ℝ) : ℝ :=
  ∑ i ∈ Finset.range c.n_species_mixture, c.specificHeat i * c.massFractions i

/-- Wilke interaction factor phi between species i and j, shared verbatim
by WilkeViscosity and WilkeConductivity in the source.  lv is the
viscosity array the factor reads. -/
def wilkePhi (lv : ℕ → ℝ) (molarMasses : ℕ → ℝ) (i j : ℕ) : ℝ :=
  (1 + Real.sqrt (lv i / lv j) * (molarMasses j / molarMasses i) ^ ((1 : ℝ) / 4)) ^ (2 : ℕ) /
    Real.sqrt (8 * (1 + molarMasses i / molarMasses j))

/-- CFluidCantera::WilkeViscosity: refreshes the per species laminar
viscosities from the strategy laws at the current temperature and density,
then returns the Wilke mixture average.  The pair carries the mutated
object and the returned value. -/
def CFluidCantera.WilkeViscosity (c : CFluidCantera) (val_scalars : ℕ → ℝ) :
    CFluidCantera × ℝ :=
  let n := c.n_species_mixture
  let lv : ℕ → ℝ := fun i =>
    if i < n then c.LaminarViscosityPointers i c.Temperature c.Density
    else c.laminarViscosity i
  let wilkeDenumerator : ℕ → ℝ := fun i =>
    ∑ j ∈ Finset.range n,
      if j = i then c.moleFractions j else c.moleFractions j * wilkePhi lv c.molarMasses i j
  let viscosityMixture : ℝ :=
    ∑ i ∈ Finset.range n, c.moleFractions i * lv i / wilkeDenumerator i
  ({ c with laminarViscosity := lv }, viscosityMixture)

/-- CFluidCantera::DavidsonViscosity: refreshes the per species laminar
viscosities, forms the momentum fractions, and returns the reciprocal of
the Davidson fluidity sum with exponent A = 0.375. -/
def CFluidCantera.DavidsonViscosity (c : CFluidCantera) (val_scalars : ℕ → ℝ) :
    CFluidCantera × ℝ :=
  let A : ℝ := 0.375
  let n := c.n_species_mixture
  let lv : ℕ → ℝ := fun i =>
    if i < n then c.LaminarViscosityPointers i c.Temperature c.Density
    else c.laminarViscosity i
  let mixtureFractionDenumerator : ℝ :=
    ∑ i ∈ Finset.range n, c.moleFractions i * Real.sqrt (c.molarMasses i)
  let mixtureFractions : ℕ → ℝ := fun j =>
    c.moleFractions j * Real.sqrt (c.molarMasses j) / mixtureFractionDenumerator
  let fluidity : ℝ :=
    ∑ i ∈ Finset.range n, ∑ j ∈ Finset.range n,
      mixtureFractions i * mixtureFractions j /
          (Real.sqrt (lv i) * Real.sqrt (lv j)) *
        (2 * Real.sqrt (c.molarMasses i) * Real.sqrt (c.molarMasses j) /
            (c.molarMasses i + c.molarMasses j)) ^ A
  ({ c with laminarViscosity := lv }, 1 / fluidity)

/-- CFluidCantera::WilkeConductivity: refreshes the per species thermal
conductivities from the strategy laws (called with the current
temperature, density and mixture viscosity), then returns the Wilke
mixture average; the interaction factor reads the stored laminarViscosity
array. -/
def CFluidCantera.WilkeConductivity (c : CFluidCantera) (val_scalars : ℕ → ℝ) :
    CFluidCantera × ℝ :=
  let n := c.n_species_mixture
  let ltc : ℕ → ℝ := fun i =>
    if i < n then c.ThermalConductivityPointers i c.Temperature c.Density c.Mu
    else c.laminarThermalConductivity i
  let wilkeDenumerator : ℕ → ℝ := fun i =>
    ∑ j ∈ Finset.range n,
      if j = i then c.moleFractions j
      else c.moleFractions j * wilkePhi c.laminarViscosity c.molarMasses i j
  let conductivityMixture : ℝ :=
    ∑ i ∈ Finset.range n, c.moleFractions i * ltc i / wilkeDenumerator i
  ({ c with laminarThermalConductivity := ltc }, conductivityMixture)

/-- CFluidCantera::ComputeMassDiffusivity: refreshes every per species
mass diffusivity from its strategy law at the current density, viscosity,
cp and kt. -/
def CFluidCantera.ComputeMassDiffusivity (c : CFluidCantera) : CFluidCantera :=
  let md : ℕ → ℝ := fun i =>
    if i < c.n_species_mixture then c.MassDiffusivityPointers i c.Density c.Mu c.Cp c.Kt
    else c.massDiffusivity i
  { c with massDiffusivity := md }

/-- Arguments of the setState_TPX call that SetTDState_T hands to the
Cantera thermochemistry backend: a temperature, a pressure, and a mole
fraction composition string. -/
structure SetState_TPX_Call where
  T : ℝ
  P : ℝ
  X : String
deriving DecidableEq

/-- First part of CFluidCantera::SetTDState_T after the Cantera call:
composition update, gas constant, temperature, density, cp and cv
assignments, in source order. -/
def CFluidCantera.afterThermo (c : CFluidCantera) (val_temperature : ℝ)
    (val_scalars : ℕ → ℝ) : CFluidCantera :=
  let c1 := c.MassToMoleFractions val_scalars
  let c2 := { c1 with Gas_Constant := c1.ComputeGasConstant }
  let c3 := { c2 with Temperature := val_temperature }
  let c4 := { c3 with Density := c3.Pressure_Thermodynamic / (c3.Temperature * c3.Gas_Constant) }
  let c5 := { c4 with Cp := c4.ComputeMeanSpecificHeatCp val_scalars }
  { c5 with Cv := c5.Cp - c5.Gas_Constant }

/-- State of SetTDState_T after the viscosity branch: Mu is assigned the
Wilke value when the wilke flag is set, the Davidson value when the
davidson flag is set, and is otherwise left untouched. -/
def CFluidCantera.afterViscosity (c : CFluidCantera) (val_temperature : ℝ)
    (val_scalars : ℕ → ℝ) : CFluidCantera :=
  let c6 := c.afterThermo val_temperature val_scalars
  if c6.wilke then
    let p := c6.WilkeViscosity val_scalars
    { p.1 with Mu := p.2 }
  else if c6.davidson then
    let p := c6.DavidsonViscosity val_scalars
    { p.1 with Mu := p.2 }
  else c6

/-- CFluidCantera::SetTDState_T.  The pair carries the final object state
and the arguments of the setState_TPX call issued to the chemistry
backend; the source issues that call first, with the previously stored
Temperature member, the operating pressure, and the literal composition
string "H2O:1.0, H2:8.0, AR:1.0", before any member is updated from the
arguments. -/
def CFluidCantera.SetTDState_T (c : CFluidCantera) (val_temperature : ℝ)
    (val_scalars : ℕ → ℝ) : CFluidCantera × SetState_TPX_Call :=
  let call : SetState_TPX_Call :=
    { T := c.Temperature, P := c.Pressure_Thermodynamic, X := "H2O:1.0, H2:8.0, AR:1.0" }
  let c7 := c.afterViscosity val_temperature val_scalars
  let c8 :=
    let p := c7.WilkeConductivity val_scalars
    { p.1 with Kt := p.2 }
  (c8.ComputeMassDiffusivity, call)

/-- Driver state visible to the accessor layer of
python_wrapper_structure.cpp.  Configuration predicates become booleans,
the solver arrays indexed through GetNodes() become functions of the point
index, GetNumberVertices and GetNumberMarkerVertices (defined outside the
excerpt) become the fields nVertices and nMarkerVertices, and
GetMarkerVertexIndices becomes markerVertexIndex. -/
structure CDriver where
  fluidProblem : Bool
  discreteAdjoint : Bool
  residualsFormulation : Bool
  compressible : Bool
  nVertices : ℕ
  nDim : ℕ
  nVar : ℕ
  prandtlLam : ℝ
  gasConstantND : ℝ
  gamma : ℝ
  soundSpeed : ℕ → ℝ
  laminarViscosity : ℕ → ℝ
  eddyViscosity : ℕ → ℝ
  gradientPrimitive : ℕ → ℕ → ℝ
  sensObjStates : ℕ → ℕ → ℝ
  nMarkerVertices : ℕ → ℕ
  markerVertexIndex : ℕ → ℕ → ℕ
  vertexTractionAdj : ℕ → ℕ → ℕ → ℝ

/-- CDriver::GetNumberStateVariables. -/
def CDriver.GetNumberStateVariables (d : CDriver) : Except String ℕ :=
  if !d.fluidProblem then Except.error "Flow solver is not defined!"
  else Except.ok d.nVar

/-- Per point CDriver::GetSpeedOfSound(iPoint).  The solver availability
guard is transcribed exactly as in the source, where the condition is
GetFluidProblem() without negation. -/
def CDriver.GetSpeedOfSoundAt (d : CDriver) (iPoint : ℕ) : Except String ℝ :=
  if d.fluidProblem then Except.error "Flow solver is not defined!"
  else if d.nVertices ≤ iPoint then Except.error "Vertex index exceeds mesh size."
  else Except.ok (d.soundSpeed iPoint)

/-- Whole mesh CDriver::GetSpeedOfSound(). -/
def CDriver.GetSpeedOfSound (d : CDriver) : Except String (List ℝ) :=
  (List.range d.nVertices).mapM (fun iPoint => d.GetSpeedOfSoundAt iPoint)

/-- Per vertex CDriver::GetMarkerSpeedOfSound(iMarker, iVertex); its
guard condition is also GetFluidProblem() without negation in the
source. -/
def CDriver.GetMarkerSpeedOfSoundAt (d : CDriver) (iMarker iVertex : ℕ) :
    Except String ℝ :=
  if d.fluidProblem then Except.error "Flow solver is not defined!"
  else Except.ok (d.soundSpeed (d.markerVertexIndex iMarker iVertex))

/-- Whole marker CDriver::GetMarkerSpeedOfSound(iMarker); the source loop
body calls the per point getter GetSpeedOfSound(iVertex), not the per
marker getter. -/
def CDriver.GetMarkerSpeedOfSound (d : CDriver) (iMarker : ℕ) : Except String (List ℝ) :=
  (List.range (d.nMarkerVertices iMarker)).mapM (fun iVertex => d.GetSpeedOfSoundAt iVertex)

/-- Per point CDriver::GetLaminarViscosities(iPoint). -/
def CDriver.GetLaminarViscositiesAt (d : CDriver) (iPoint : ℕ) : Except String ℝ :=
  if !d.fluidProblem then Except.error "Flow solver is not defined!"
  else if d.nVertices ≤ iPoint then Except.error "Vertex index exceeds mesh size."
  else Except.ok (d.laminarViscosity iPoint)

/-- Whole mesh CDriver::GetLaminarViscosities(). -/
def CDriver.GetLaminarViscosities (d : CDriver) : Except String (List ℝ) :=
  (List.range d.nVertices).mapM (fun iPoint => d.GetLaminarViscositiesAt iPoint)

/-- Per vertex CDriver::GetMarkerLaminarViscosities(iMarker, iVertex). -/
def CDriver.GetMarkerLaminarViscositiesAt (d : CDriver) (iMarker iVertex : ℕ) :
    Except String ℝ :=
  if !d.fluidProblem then Except.error "Flow solver is not defined!"
  else Except.ok (d.laminarViscosity (d.markerVertexIndex iMarker iVertex))

/-- Per point CDriver::GetEddyViscosities(iPoint). -/
def CDriver.GetEddyViscositiesAt (d : CDriver) (iPoint : ℕ) : Except String ℝ :=
  if !d.fluidProblem then Except.error "Flow solver is not defined!"
  else if d.nVertices ≤ iPoint then Except.error "Vertex index exceeds mesh size."
  else Except.ok (d.eddyViscosity iPoint)

/-- Per vertex CDriver::GetMarkerEddyViscosities(iMarker, iVertex). -/
def CDriver.GetMarkerEddyViscositiesAt (d : CDriver) (iMarker iVertex : ℕ) :
    Except String ℝ :=
  if !d.fluidProblem then Except.error "Flow solver is not defined!"
  else Except.ok (d.eddyViscosity (d.markerVertexIndex iMarker iVertex))

/-- Whole marker CDriver::GetMarkerEddyViscosities(iMarker); the source
loop body calls GetMarkerLaminarViscosities(iMarker, iVertex). -/
def CDriver.GetMarkerEddyViscosities (d : CDriver) (iMarker : ℕ) : Except String (List ℝ) :=
  (List.range (d.nMarkerVertices iMarker)).mapM
    (fun iVertex => d.GetMarkerLaminarViscositiesAt iMarker iVertex)

/-- Thermal conductivity value the accessors derive from the laminar
viscosity: Cp * (mu / Prandtl_Lam) with Cp = (gamma / (gamma - 1)) * R. -/
def CDriver.conductivityFromPrandtl (d : CDriver) (iPoint : ℕ) : ℝ :=
  d.gamma / (d.gamma - 1) * d.gasConstantND * (d.laminarViscosity iPoint / d.prandtlLam)

/-- Per point CDriver::GetThermalConductivities(iPoint). -/
def CDriver.GetThermalConductivitiesAt (d : CDriver) (iPoint : ℕ) : Except String ℝ :=
  if !d.fluidProblem then Except.error "Flow solver is not defined!"
  else if d.nVertices ≤ iPoint then Except.error "Vertex index exceeds mesh size."
  else Except.ok (d.conductivityFromPrandtl iPoint)

/-- Heat flux vector a per point heat flux accessor returns: all zeros
outside the compressible regime, and otherwise minus conductivity times
the temperature gradient in each dimension. -/
def CDriver.heatFluxValues (d : CDriver) (iPoint : ℕ) : List ℝ :=
  if !d.compressible then List.replicate d.nDim 0
  else
    (List.range d.nDim).map
      (fun iDim => -d.conductivityFromPrandtl iPoint * d.gradientPrimitive iPoint iDim)

/-- Per point CDriver::GetHeatFluxes(iPoint). -/
def CDriver.GetHeatFluxesAt (d : CDriver) (iPoint : ℕ) : Except String (List ℝ) :=
  if !d.fluidProblem then Except.error "Flow solver is not defined!"
  else if d.nVertices ≤ iPoint then Except.error "Vertex index exceeds mesh size."
  else Except.ok (d.heatFluxValues iPoint)

/-- Per point CDriver::GetObjectiveStatesSensitivities(iPoint). -/
def CDriver.GetObjectiveStatesSensitivitiesAt (d : CDriver) (iPoint : ℕ) :
    Except String (List ℝ) :=
  if !(d.fluidProblem && d.discreteAdjoint) then
    Except.error "Discrete adjoint flow solver is not defined!"
  else if !d.residualsFormulation then
    Except.error "Discrete adjoint flow solver does not use residual-based formulation!"
  else if d.nVertices ≤ iPoint then Except.error "Vertex index exceeds mesh size."
  else
    match d.GetNumberStateVariables with
    | Except.error e => Except.error e
    | Except.ok nVar =>
        Except.ok ((List.range nVar).map (fun iVar => d.sensObjStates iPoint iVar))

/-- Element wise CDriver::SetMarkerAdjointForces(iMarker, iVertex,
values).  After the guards the source stores
values[iVertex * nDim + iDim] for each iDim below nDim; a read past the
end of the values vector is undefined behaviour in C++ and is modelled as
an error. -/
def CDriver.SetMarkerAdjointForcesAt (d : CDriver) (iMarker iVertex : ℕ)
    (values : List ℝ) : Except String CDriver :=
  if !(d.fluidProblem && d.discreteAdjoint) then
    Except.error "Discrete adjoint flow solver is not defined!"
  else if d.nMarkerVertices iMarker ≤ iVertex then
    Except.error "Vertex index exceeds marker size."
  else if values.length ≠ d.nDim then Except.error "Invalid number of dimensions!"
  else if (List.range d.nDim).all (fun iDim => iVertex * d.nDim + iDim < values.length) then
    Except.ok
      { d with
        vertexTractionAdj := fun m v k =>
          if m = iMarker ∧ v = iVertex ∧ k < d.nDim then
            values.getD (iVertex * d.nDim + k) 0
          else d.vertexTractionAdj m v k }
  else Except.error "undefined behavior: vector index out of range"

/-- Scalar composition input used by concrete evaluations. -/
def sW : ℕ → ℝ := fun _ => 1 / 2

/-- Concrete fluid object for evaluations: a two species mixture with the
wilke flag set, equal unit molar masses, constant viscosity law 2 and
constant conductivity law 3. -/
def cW : CFluidCantera :=
  { n_species_mixture := 2
    Gas_Constant := 1
    Gamma := 1.4
    Pressure_Thermodynamic := 1
    GasConstant_Ref := 1
    Prandtl_Number := 0.9
    wilke := true
    davidson := false
    molarMasses := fun _ => 1
    specificHeat := fun _ => 1
    massFractions := fun _ => 1 / 2
    moleFractions := fun _ => 1 / 2
    laminarViscosity := fun _ => 2
    laminarThermalConductivity := fun _ => 3
    massDiffusivity := fun _ => 0
    LaminarViscosityPointers := fun _ _ _ => 2
    ThermalConductivityPointers := fun _ _ _ _ => 3
    MassDiffusivityPointers := fun _ _ _ _ _ => 0
    Temperature := 300
    Density := 1
    Cp := 1
    Cv := 1
    Mu := 2
    Kt := 3 }

/-- Variant of cW with the davidson flag set instead of wilke. -/
def cWd : CFluidCantera := { cW with wilke := false, davidson := true }

/-- Variant of cW with neither mixing flag set. -/
def cWn : CFluidCantera := { cW with wilke := false, davidson := false }

/-- Variant of cWn whose stored temperature is 500 and operating pressure
2, used to evaluate the Cantera backend call. -/
def cWt : CFluidCantera :=
  { cWn with Temperature := 500, Pressure_Thermodynamic := 2 }

/-- Concrete configuration with one transported species and ARRAYSIZE
16. -/
def cfgW : CFluidConfig :=
  { nSpecies := 1
    Gamma := 1.4
    Gas_Constant_Ref := 1
    Prandtl_Turb := 0.9
    Kind_MixingViscosityModel := MIXINGVISCOSITYMODEL.WILKE
    Molecular_Weight := fun _ => 1
    Specific_Heat_CpND := fun _ => 1
    LaminarViscosityModel := fun _ _ _ => 2
    ThermalConductivityModel := fun _ _ _ _ => 3
    MassDiffusivityModel := fun _ _ _ _ _ => 0
    ARRAYSIZE := 16 }

/-- Configuration with more mixture species than ARRAYSIZE. -/
def cfgBig : CFluidConfig := { cfgW with nSpecies := 20 }

/-- Concrete driver state for evaluations: fluid problem and residual
based discrete adjoint configured, 2 mesh vertices, 2 dimensions, 3 state
variables, laminar viscosity 3 and eddy viscosity 4 everywhere. -/
def dW : CDriver :=
  { fluidProblem := true
    discreteAdjoint := true
    residualsFormulation := true
    compressible := true
    nVertices := 2
    nDim := 2
    nVar := 3
    prandtlLam := 1
    gasConstantND := 1
    gamma := 2
    soundSpeed := fun _ => 1
    laminarViscosity := fun _ => 3
    eddyViscosity := fun _ => 4
    gradientPrimitive := fun _ _ => 1
    sensObjStates := fun _ _ => 2
    nMarkerVertices := fun _ => 1
    markerVertexIndex := fun _ _ => 0
    vertexTractionAdj := fun _ _ _ => 0 }

/-- Variant of dW with no fluid problem configured. -/
def dWf : CDriver := { dW with fluidProblem := false }

/-- Variant of dW whose marker 0 vertex 0 maps to mesh point 1 and whose
sound speeds distinguish points 0 and 1. -/
def dW6 : CDriver :=
  { dW with
    markerVertexIndex := fun _ _ => 1
    soundSpeed := fun i => if i = 0 then 10 else 20 }

/-- Variant of dW6 with no fluid problem configured. -/
def dW6f : CDriver := { dW6 with fluidProblem := false }

/-- Variant of dW whose marker 0 owns two vertices, so that vertex index
1 passes the marker bounds guard of the adjoint force setter. -/
def dW9 : CDriver := { dW with nMarkerVertices := fun _ => 2 }

-- Theorems follow.

/-- C1: for nonnegative scalar inputs with sum at most 1 and positive
molar masses, MassToMoleFractions closes the composition (the last mass
fraction is 1 minus the input sum), the stored mass fractions sum to 1,
and the stored mole fractions, each the molar mass weighted renormalized
value, also sum to 1. -/
theorem MassToMoleFractions_normalizes (c : CFluidCantera) (s : ℕ → ℝ)
    (hn : 1 ≤ c.n_species_mixture)
    (hM : ∀ i < c.n_species_mixture, 0 < c.molarMasses i)
    (hs : ∀ i < c.n_species_mixture - 1, 0 ≤ s i)
    (hsum : ∑ i ∈ Finset.range (c.n_species_mixture - 1), s i ≤ 1) :
    (c.MassToMoleFractions s).massFractions (c.n_species_mixture - 1)
        = 1 - ∑ i ∈ Finset.range (c.n_species_mixture - 1), s i ∧
    ∑ i ∈ Finset.range c.n_species_mixture, (c.MassToMoleFractions s).massFractions i = 1 ∧
    ∑ i ∈ Finset.range c.n_species_mixture, (c.MassToMoleFractions s).moleFractions i = 1 := by
  obtain ⟨m, hm⟩ : ∃ m, c.n_species_mixture = m + 1 :=
    ⟨c.n_species_mixture - 1, (Nat.succ_pred_eq_of_pos hn).symm⟩
  have hm1 : c.n_species_mixture - 1 = m := by omega
  rw [hm1] at hsum
  have hs' : ∀ i < m, 0 ≤ s i := fun i hi => hs i (by rw [hm1]; exact hi)
  have hM' : ∀ i < m + 1, 0 < c.molarMasses i := fun i hi => hM i (by rw [hm]; exact hi)
  have hmf : ∀ i, (c.MassToMoleFractions s).massFractions i
      = if i < m then s i
        else if i = m then 1 - ∑ j ∈ Finset.range m, s j
        else c.massFractions i := by
    intro i
    simp only [CFluidCantera.MassToMoleFractions, hm1]
  have hmass : ∀ i < m + 1, 0 ≤ (c.MassToMoleFractions s).massFractions i := by
    intro i hi
    rw [hmf i]
    rcases Nat.lt_or_ge i m with h | h
    · rw [if_pos h]
      exact hs' i h
    · have hieq : i = m := by omega
      rw [if_neg (by omega), if_pos hieq]
      linarith
  have hmsum : ∑ i ∈ Finset.range (m + 1), (c.MassToMoleFractions s).massFractions i = 1 := by
    rw [Finset.sum_range_succ]
    have h1 : ∑ i ∈ Finset.range m, (c.MassToMoleFractions s).massFractions i
        = ∑ i ∈ Finset.range m, s i := by
      refine Finset.sum_congr rfl (fun i hi => ?_)
      rw [hmf i, if_pos (Finset.mem_range.mp hi)]
    rw [h1, hmf m, if_neg (lt_irrefl m), if_pos rfl]
    ring
  have hDpos : 0 < ∑ j ∈ Finset.range (m + 1),
      (c.MassToMoleFractions s).massFractions j / c.molarMasses j := by
    apply Finset.sum_pos'
    · intro i hi
      exact div_nonneg (hmass i (Finset.mem_range.mp hi)) (hM' i (Finset.mem_range.mp hi)).le
    · by_contra hcon
      push_neg at hcon
      have hall0 : ∀ j ∈ Finset.range (m + 1), (c.MassToMoleFractions s).massFractions j = 0 := by
        intro j hj
        have hj' := Finset.mem_range.mp hj
        have hnn := div_nonneg (hmass j hj') (hM' j hj').le
        have ht0 : (c.MassToMoleFractions s).massFractions j / c.molarMasses j = 0 :=
          le_antisymm (hcon j hj) hnn
        rcases div_eq_zero_iff.mp ht0 with h0 | h0
        · exact h0
        · exact absurd h0 (ne_of_gt (hM' j hj'))
      have hz : ∑ j ∈ Finset.range (m + 1), (c.MassToMoleFractions s).massFractions j = 0 :=
        Finset.sum_eq_zero hall0
      rw [hmsum] at hz
      norm_num at hz
  have hmole : ∀ i < m + 1, (c.MassToMoleFractions s).moleFractions i
      = ((c.MassToMoleFractions s).massFractions i / c.molarMasses i) /
        (∑ j ∈ Finset.range (m + 1),
          (c.MassToMoleFractions s).massFractions j / c.molarMasses j) := by
    intro i hi
    simp only [CFluidCantera.MassToMoleFractions, hm]
    rw [if_pos hi]
  refine ⟨?_, ?_, ?_⟩
  · rw [hm1, hmf m, if_neg (lt_irrefl m), if_pos rfl]
  · rw [hm]
    exact hmsum
  · rw [hm]
    calc ∑ i ∈ Finset.range (m + 1), (c.MassToMoleFractions s).moleFractions i
        = ∑ i ∈ Finset.range (m + 1),
            ((c.MassToMoleFractions s).massFractions i / c.molarMasses i) /
              (∑ j ∈ Finset.range (m + 1),
                (c.MassToMoleFractions s).massFractions j / c.molarMasses j) :=
          Finset.sum_congr rfl (fun i hi => hmole i (Finset.mem_range.mp hi))
      _ = 1 := by
          rw [← Finset.sum_div]
          exact div_self (ne_of_gt hDpos)

/-- C1 witness: the hypotheses hold and the theorem applies at the
concrete two species state cW with scalar input 1/2. -/
theorem MassToMoleFractions_normalizes_witness :
    (1 ≤ cW.n_species_mixture) ∧
    ∑ i ∈ Finset.range cW.n_species_mixture, (cW.MassToMoleFractions sW).massFractions i = 1 ∧
    ∑ i ∈ Finset.range cW.n_species_mixture, (cW.MassToMoleFractions sW).moleFractions i = 1 :=
  ⟨by norm_num [cW],
    (MassToMoleFractions_normalizes cW sW (by norm_num [cW])
      (fun i _ => by norm_num [cW])
      (fun i _ => by norm_num [sW])
      (by simp [cW, sW]; norm_num)).2.1,
    (MassToMoleFractions_normalizes cW sW (by norm_num [cW])
      (fun i _ => by norm_num [cW])
      (fun i _ => by norm_num [sW])
      (by simp [cW, sW]; norm_num)).2.2⟩

/-- Helper: the thermodynamic part of SetTDState_T leaves the wilke flag
unchanged. -/
theorem afterThermo_wilke (c : CFluidCantera) (T : ℝ) (s : ℕ → ℝ) :
    (c.afterThermo T s).wilke = c.wilke := rfl

/-- Helper: the thermodynamic part of SetTDState_T leaves the davidson
flag unchanged. -/
theorem afterThermo_davidson (c : CFluidCantera) (T : ℝ) (s : ℕ → ℝ) :
    (c.afterThermo T s).davidson = c.davidson := rfl

/-- Helper: the final state of SetTDState_T carries the Mu produced by
the viscosity branch; the conductivity and diffusivity steps do not touch
it. -/
theorem SetTDState_T_Mu (c : CFluidCantera) (T : ℝ) (s : ℕ → ℝ) :
    (c.SetTDState_T T s).1.Mu = (c.afterViscosity T s).Mu := rfl

/-- Helper: the final state of SetTDState_T carries the Kt returned by
WilkeConductivity on the post viscosity state. -/
theorem SetTDState_T_Kt (c : CFluidCantera) (T : ℝ) (s : ℕ → ℝ) :
    (c.SetTDState_T T s).1.Kt = ((c.afterViscosity T s).WilkeConductivity s).2 := rfl

/-- Helper: value stored by ComputeMassDiffusivity at an in range species
index. -/
theorem ComputeMassDiffusivity_at (c : CFluidCantera) (i : ℕ)
    (hi : i < c.n_species_mixture) :
    (c.ComputeMassDiffusivity).massDiffusivity i
      = c.MassDiffusivityPointers i c.Density c.Mu c.Cp c.Kt := by
  simp only [CFluidCantera.ComputeMassDiffusivity]
  rw [if_pos hi]

/-- C3: when the configured mixing viscosity model is WILKE the mixture
viscosity Mu stored by SetTDState_T is the WilkeViscosity value, when it
is DAVIDSON it is the DavidsonViscosity value, and the conductivity Kt is
the WilkeConductivity value on every call. -/
theorem SetTDState_T_mixing_rules (c : CFluidCantera) (mvm : MIXINGVISCOSITYMODEL)
    (T : ℝ) (s : ℕ → ℝ)
    (hw : c.wilke = decide (mvm = MIXINGVISCOSITYMODEL.WILKE))
    (hd : c.davidson = decide (mvm = MIXINGVISCOSITYMODEL.DAVIDSON)) :
    (mvm = MIXINGVISCOSITYMODEL.WILKE →
      (c.SetTDState_T T s).1.Mu = ((c.afterThermo T s).WilkeViscosity s).2) ∧
    (mvm = MIXINGVISCOSITYMODEL.DAVIDSON →
      (c.SetTDState_T T s).1.Mu = ((c.afterThermo T s).DavidsonViscosity s).2) ∧
    (c.SetTDState_T T s).1.Kt = ((c.afterViscosity T s).WilkeConductivity s).2 := by
  refine ⟨?_, ?_, SetTDState_T_Kt c T s⟩
  · intro hmw
    subst hmw
    have hw' : c.wilke = true := by simpa using hw
    rw [SetTDState_T_Mu]
    simp [CFluidCantera.afterViscosity, afterThermo_wilke, hw']
  · intro hmd
    subst hmd
    have hw' : c.wilke = false := by simpa using hw
    have hd' : c.davidson = true := by simpa using hd
    rw [SetTDState_T_Mu]
    simp [CFluidCantera.afterViscosity, afterThermo_wilke, afterThermo_davidson, hw', hd']

/-- C3 witness: the theorem applied at the concrete wilke state cW and at
the concrete davidson state cWd. -/
theorem SetTDState_T_mixing_rules_witness :
    (cW.SetTDState_T 350 sW).1.Mu = ((cW.afterThermo 350 sW).WilkeViscosity sW).2 ∧
    (cW.SetTDState_T 350 sW).1.Kt = ((cW.afterViscosity 350 sW).WilkeConductivity sW).2 ∧
    (cWd.SetTDState_T 350 sW).1.Mu = ((cWd.afterThermo 350 sW).DavidsonViscosity sW).2 :=
  ⟨(SetTDState_T_mixing_rules cW MIXINGVISCOSITYMODEL.WILKE 350 sW rfl rfl).1 rfl,
   (SetTDState_T_mixing_rules cW MIXINGVISCOSITYMODEL.WILKE 350 sW rfl rfl).2.2,
   (SetTDState_T_mixing_rules cWd MIXINGVISCOSITYMODEL.DAVIDSON 350 sW rfl rfl).2.1 rfl⟩

/-- C10: with neither mixing flag set, SetTDState_T leaves Mu unchanged
while still updating Temperature, Density, Cp, Cv, Kt and the mass
diffusivities from the fresh composition. -/
theorem SetTDState_T_frame_no_mixing_model (c : CFluidCantera) (T : ℝ) (s : ℕ → ℝ)
    (hw : c.wilke = false) (hd : c.davidson = false) :
    (c.SetTDState_T T s).1.Mu = c.Mu ∧
    (c.SetTDState_T T s).1.Temperature = T ∧
    (c.SetTDState_T T s).1.Density
        = c.Pressure_Thermodynamic / (T * (c.MassToMoleFractions s).ComputeGasConstant) ∧
    (c.SetTDState_T T s).1.Cp = (c.MassToMoleFractions s).ComputeMeanSpecificHeatCp s ∧
    (c.SetTDState_T T s).1.Cv
        = (c.MassToMoleFractions s).ComputeMeanSpecificHeatCp s
            - (c.MassToMoleFractions s).ComputeGasConstant ∧
    (c.SetTDState_T T s).1.Kt = ((c.afterThermo T s).WilkeConductivity s).2 ∧
    ∀ i < c.n_species_mixture,
      (c.SetTDState_T T s).1.massDiffusivity i
        = c.MassDiffusivityPointers i (c.SetTDState_T T s).1.Density c.Mu
            (c.SetTDState_T T s).1.Cp (c.SetTDState_T T s).1.Kt := by
  have hv : c.afterViscosity T s = c.afterThermo T s := by
    simp [CFluidCantera.afterViscosity, afterThermo_wilke, afterThermo_davidson, hw, hd]
  have hset : (c.SetTDState_T T s).1
      = ({ ((c.afterThermo T s).WilkeConductivity s).1 with
            Kt := ((c.afterThermo T s).WilkeConductivity s).2 }).ComputeMassDiffusivity := by
    show ({ ((c.afterViscosity T s).WilkeConductivity s).1 with
            Kt := ((c.afterViscosity T s).WilkeConductivity s).2 }).ComputeMassDiffusivity = _
    rw [hv]
  refine ⟨?_, ?_, ?_, ?_, ?_, ?_, ?_⟩
  · rw [hset]; rfl
  · rw [hset]; rfl
  · rw [hset]; rfl
  · rw [hset]; rfl
  · rw [hset]; rfl
  · rw [hset]; rfl
  · intro i hi
    rw [hset]
    rw [ComputeMassDiffusivity_at]
    · rfl
    · exact hi

/-- C10 witness: the theorem applied at the concrete state cWn with
neither mixing flag set. -/
theorem SetTDState_T_frame_no_mixing_model_witness :
    (cWn.SetTDState_T 350 sW).1.Mu = cWn.Mu ∧
    (cWn.SetTDState_T 350 sW).1.Temperature = 350 :=
  ⟨(SetTDState_T_frame_no_mixing_model cWn 350 sW rfl rfl).1,
   (SetTDState_T_frame_no_mixing_model cWn 350 sW rfl rfl).2.1⟩

/-- C2: evaluation of the backend call at a concrete state.  The
setState_TPX call issued by SetTDState_T carries the previously stored
temperature 500 and the fixed composition string, although the call asked
for temperature 300 with scalar composition sW: the state handed to the
chemistry backend is not the requested one. -/
theorem SetTDState_T_cantera_call_hardcoded :
    (cWt.SetTDState_T 300 sW).2
        = { T := 500, P := 2, X := "H2O:1.0, H2:8.0, AR:1.0" } ∧
    (300 : ℝ) ≠ 500 :=
  ⟨rfl, by norm_num⟩

/-- Helper: the Wilke interaction factor equals 1 when both species carry
the same positive viscosity and the same positive molar mass. -/
theorem wilkePhi_same (M mu : ℝ) (hM : 0 < M) (hmu : 0 < mu)
    (lv mm : ℕ → ℝ) (i j : ℕ)
    (hlvi : lv i = mu) (hlvj : lv j = mu) (hmi : mm i = M) (hmj : mm j = M) :
    wilkePhi lv mm i j = 1 := by
  unfold wilkePhi
  rw [hlvi, hlvj, hmi, hmj, div_self hmu.ne', div_self hM.ne', Real.sqrt_one, Real.one_rpow]
  rw [show (8 : ℝ) * (1 + 1) = 16 by norm_num]
  rw [show (16 : ℝ) = 4 ^ 2 by norm_num, Real.sqrt_sq (by norm_num : (0 : ℝ) ≤ 4)]
  norm_num

/-- Helper: a Wilke mixture sum over species whose interaction array is a
constant positive mu, whose molar masses are a constant positive M, and
whose averaged values are a constant v, collapses to v once the mole
fractions sum to 1. -/
theorem wilke_mixture_sum_const (n : ℕ) (x phiArr val mm : ℕ → ℝ) (M mu v : ℝ)
    (hM : 0 < M) (hmu : 0 < mu)
    (hx : ∑ i ∈ Finset.range n, x i = 1)
    (hphi : ∀ i < n, phiArr i = mu)
    (hval : ∀ i < n, val i = v)
    (hmm : ∀ i < n, mm i = M) :
    (∑ i ∈ Finset.range n, x i * val i /
        (∑ j ∈ Finset.range n, if j = i then x j else x j * wilkePhi phiArr mm i j)) = v := by
  have hden : ∀ i ∈ Finset.range n,
      (∑ j ∈ Finset.range n, if j = i then x j else x j * wilkePhi phiArr mm i j) = 1 := by
    intro i hi
    have hi' := Finset.mem_range.mp hi
    have hterm : ∀ j ∈ Finset.range n,
        (if j = i then x j else x j * wilkePhi phiArr mm i j) = x j := by
      intro j hj
      have hj' := Finset.mem_range.mp hj
      by_cases hji : j = i
      · rw [if_pos hji]
      · rw [if_neg hji,
          wilkePhi_same M mu hM hmu phiArr mm i j (hphi i hi') (hphi j hj')
            (hmm i hi') (hmm j hj'), mul_one]
    rw [Finset.sum_congr rfl hterm, hx]
  have hstep : ∀ i ∈ Finset.range n,
      x i * val i /
          (∑ j ∈ Finset.range n, if j = i then x j else x j * wilkePhi phiArr mm i j)
        = x i * v := by
    intro i hi
    rw [hden i hi, hval i (Finset.mem_range.mp hi), div_one]
  rw [Finset.sum_congr rfl hstep, ← Finset.sum_mul, hx, one_mul]

/-- C8: with identical positive molar masses, identical positive per
species viscosities and identical per species conductivities, and mole
fractions summing to 1, WilkeViscosity returns the common viscosity and
WilkeConductivity returns the common conductivity. -/
theorem wilke_rules_identical_species (c : CFluidCantera) (s : ℕ → ℝ) (M mu kap : ℝ)
    (hM : 0 < M) (hmu : 0 < mu)
    (hmm : ∀ i < c.n_species_mixture, c.molarMasses i = M)
    (hsum : ∑ i ∈ Finset.range c.n_species_mixture, c.moleFractions i = 1)
    (hvp : ∀ i < c.n_species_mixture,
      c.LaminarViscosityPointers i c.Temperature c.Density = mu)
    (hlv : ∀ i < c.n_species_mixture, c.laminarViscosity i = mu)
    (hcp : ∀ i < c.n_species_mixture,
      c.ThermalConductivityPointers i c.Temperature c.Density c.Mu = kap) :
    (c.WilkeViscosity s).2 = mu ∧ (c.WilkeConductivity s).2 = kap := by
  constructor
  · exact wilke_mixture_sum_const c.n_species_mixture c.moleFractions
      (fun i => if i < c.n_species_mixture then
        c.LaminarViscosityPointers i c.Temperature c.Density else c.laminarViscosity i)
      (fun i => if i < c.n_species_mixture then
        c.LaminarViscosityPointers i c.Temperature c.Density else c.laminarViscosity i)
      c.molarMasses M mu mu hM hmu hsum
      (fun i hi => by
        show (if i < c.n_species_mixture then
          c.LaminarViscosityPointers i c.Temperature c.Density
          else c.laminarViscosity i) = mu
        rw [if_pos hi]; exact hvp i hi)
      (fun i hi => by
        show (if i < c.n_species_mixture then
          c.LaminarViscosityPointers i c.Temperature c.Density
          else c.laminarViscosity i) = mu
        rw [if_pos hi]; exact hvp i hi)
      hmm
  · exact wilke_mixture_sum_const c.n_species_mixture c.moleFractions
      c.laminarViscosity
      (fun i => if i < c.n_species_mixture then
        c.ThermalConductivityPointers i c.Temperature c.Density c.Mu
        else c.laminarThermalConductivity i)
      c.molarMasses M mu kap hM hmu hsum
      hlv
      (fun i hi => by
        show (if i < c.n_species_mixture then
          c.ThermalConductivityPointers i c.Temperature c.Density c.Mu
          else c.laminarThermalConductivity i) = kap
        rw [if_pos hi]; exact hcp i hi)
      hmm

/-- C8 witness: the theorem applied at cW, whose two species all have
molar mass 1, viscosity law 2 and conductivity law 3. -/
theorem wilke_rules_identical_species_witness :
    ((0 : ℝ) < 2) ∧ (cW.WilkeViscosity sW).2 = 2 ∧ (cW.WilkeConductivity sW).2 = 3 :=
  ⟨by norm_num,
   (wilke_rules_identical_species cW sW 1 2 3 (by norm_num) (by norm_num)
      (fun i _ => rfl) (by simp [cW, Finset.sum_range_succ])
      (fun i _ => rfl) (fun i _ => rfl) (fun i _ => rfl)).1,
   (wilke_rules_identical_species cW sW 1 2 3 (by norm_num) (by norm_num)
      (fun i _ => rfl) (by simp [cW, Finset.sum_range_succ])
      (fun i _ => rfl) (fun i _ => rfl) (fun i _ => rfl)).2⟩

/-- C7: the constructor fails exactly when the mixture species count
exceeds ARRAYSIZE, and otherwise yields the state whose molar masses and
specific heats come from the configuration. -/
theorem construct_guard (vCp vR P : ℝ) (cfg : CFluidConfig) :
    (isErr (CFluidCantera.construct vCp vR P cfg) = true
        ↔ cfg.ARRAYSIZE < cfg.nSpecies + 1) ∧
    (cfg.nSpecies + 1 ≤ cfg.ARRAYSIZE →
      CFluidCantera.construct vCp vR P cfg
        = Except.ok (constructedState vCp vR P cfg)) ∧
    (constructedState vCp vR P cfg).n_species_mixture = cfg.nSpecies + 1 ∧
    (∀ i, (constructedState vCp vR P cfg).molarMasses i = cfg.Molecular_Weight i) ∧
    (∀ i, (constructedState vCp vR P cfg).specificHeat i = cfg.Specific_Heat_CpND i) := by
  refine ⟨?_, ?_, rfl, fun i => rfl, fun i => rfl⟩
  · unfold CFluidCantera.construct
    by_cases h : cfg.ARRAYSIZE < cfg.nSpecies + 1
    · rw [if_pos h]
      simp [isErr, h]
    · rw [if_neg h]
      simp [isErr, h]
  · intro h
    unfold CFluidCantera.construct
    rw [if_neg (by omega)]

/-- C7 witness: a two species configuration below ARRAYSIZE constructs
the expected state, and a 21 species configuration aborts. -/
theorem construct_guard_witness :
    CFluidCantera.construct 1 2 3 cfgW = Except.ok (constructedState 1 2 3 cfgW) ∧
    isErr (CFluidCantera.construct 1 2 3 cfgBig) = true :=
  ⟨(construct_guard 1 2 3 cfgW).2.1 (by norm_num [cfgW]),
   (construct_guard 1 2 3 cfgBig).1.mpr (by norm_num [cfgBig, cfgW])⟩

/-- C4: every per point accessor rejects an out of range point index with
an error, and accepts an in range index under its solver availability
guards, returning the corresponding solver value (for GetSpeedOfSound the
guard of the source passes exactly when no fluid problem is configured,
compare C5). -/
theorem pointAccessors_bounds (d : CDriver) (iPoint : ℕ) :
    (d.nVertices ≤ iPoint →
      isErr (d.GetSpeedOfSoundAt iPoint) = true ∧
      isErr (d.GetLaminarViscositiesAt iPoint) = true ∧
      isErr (d.GetEddyViscositiesAt iPoint) = true ∧
      isErr (d.GetThermalConductivitiesAt iPoint) = true ∧
      isErr (d.GetHeatFluxesAt iPoint) = true ∧
      isErr (d.GetObjectiveStatesSensitivitiesAt iPoint) = true) ∧
    (iPoint < d.nVertices →
      (d.fluidProblem = false →
        d.GetSpeedOfSoundAt iPoint = Except.ok (d.soundSpeed iPoint)) ∧
      (d.fluidProblem = true →
        d.GetLaminarViscositiesAt iPoint = Except.ok (d.laminarViscosity iPoint)) ∧
      (d.fluidProblem = true →
        d.GetEddyViscositiesAt iPoint = Except.ok (d.eddyViscosity iPoint)) ∧
      (d.fluidProblem = true →
        d.GetThermalConductivitiesAt iPoint
          = Except.ok (d.conductivityFromPrandtl iPoint)) ∧
      (d.fluidProblem = true →
        d.GetHeatFluxesAt iPoint = Except.ok (d.heatFluxValues iPoint)) ∧
      (d.fluidProblem = true → d.discreteAdjoint = true → d.residualsFormulation = true →
        d.GetObjectiveStatesSensitivitiesAt iPoint
          = Except.ok ((List.range d.nVar).map (fun iVar => d.sensObjStates iPoint iVar)))) := by
  constructor
  · intro h
    refine ⟨?_, ?_, ?_, ?_, ?_, ?_⟩
    · simp only [CDriver.GetSpeedOfSoundAt]
      cases hf : d.fluidProblem <;> simp [isErr, h]
    · simp only [CDriver.GetLaminarViscositiesAt]
      cases hf : d.fluidProblem <;> simp [isErr, h]
    · simp only [CDriver.GetEddyViscositiesAt]
      cases hf : d.fluidProblem <;> simp [isErr, h]
    · simp only [CDriver.GetThermalConductivitiesAt]
      cases hf : d.fluidProblem <;> simp [isErr, h]
    · simp only [CDriver.GetHeatFluxesAt]
      cases hf : d.fluidProblem <;> simp [isErr, h]
    · simp only [CDriver.GetObjectiveStatesSensitivitiesAt]
      cases hfa : (d.fluidProblem && d.discreteAdjoint) <;>
        cases hr : d.residualsFormulation <;> simp [isErr, h]
  · intro h
    have hnl : ¬ d.nVertices ≤ iPoint := by omega
    refine ⟨?_, ?_, ?_, ?_, ?_, ?_⟩
    · intro hf
      simp [CDriver.GetSpeedOfSoundAt, hf, hnl]
    · intro hf
      simp [CDriver.GetLaminarViscositiesAt, hf, hnl]
    · intro hf
      simp [CDriver.GetEddyViscositiesAt, hf, hnl]
    · intro hf
      simp [CDriver.GetThermalConductivitiesAt, hf, hnl]
    · intro hf
      simp [CDriver.GetHeatFluxesAt, hf, hnl]
    · intro hf ha hr
      simp [CDriver.GetObjectiveStatesSensitivitiesAt, CDriver.GetNumberStateVariables,
        hf, ha, hr, hnl]

/-- C4 witness: the theorem applied at the concrete driver states dW and
dWf, out of range at point 5 and in range at point 0. -/
theorem pointAccessors_bounds_witness :
    isErr (dW.GetLaminarViscositiesAt 5) = true ∧
    dW.GetLaminarViscositiesAt 0 = Except.ok (dW.laminarViscosity 0) ∧
    dWf.GetSpeedOfSoundAt 0 = Except.ok (dWf.soundSpeed 0) ∧
    dW.GetObjectiveStatesSensitivitiesAt 0
      = Except.ok ((List.range dW.nVar).map (fun iVar => dW.sensObjStates 0 iVar)) :=
  ⟨((pointAccessors_bounds dW 5).1 (by norm_num [dW])).2.1,
   ((pointAccessors_bounds dW 0).2 (by norm_num [dW])).2.1 rfl,
   ((pointAccessors_bounds dWf 0).2 (by norm_num [dWf, dW])).1 rfl,
   ((pointAccessors_bounds dW 0).2 (by norm_num [dW])).2.2.2.2.2 rfl rfl rfl⟩

/-- C5: evaluation of the speed of sound accessor at a concrete in range
index.  With a fluid problem configured the call aborts with the message
Flow solver is not defined!, while the sibling laminar viscosity accessor
succeeds on the same state; without a fluid problem the speed of sound
accessor succeeds.  The guard polarity of the source is inverted relative
to the claim and to every sibling accessor. -/
theorem getSpeedOfSound_guard_inverted :
    dW.fluidProblem = true ∧ 0 < dW.nVertices ∧
    dW.GetSpeedOfSoundAt 0 = Except.error "Flow solver is not defined!" ∧
    dW.GetLaminarViscositiesAt 0 = Except.ok (dW.laminarViscosity 0) ∧
    dWf.fluidProblem = false ∧
    dWf.GetSpeedOfSoundAt 0 = Except.ok (dWf.soundSpeed 0) :=
  ⟨rfl, by norm_num [dW], rfl, rfl, rfl, rfl⟩

/-- C6: evaluation of the whole marker batch getters at concrete states.
The eddy viscosity batch getter returns the laminar viscosity 3 of the
mapped point where its own element getter returns the eddy viscosity 4,
and the speed of sound batch getter indexes the mesh directly (value 10
at point 0) where its element getter maps through the marker (value 20 at
point 1). -/
theorem markerBatchGetters_mismatch :
    dW6.GetMarkerEddyViscosities 0 = Except.ok [(3 : ℝ)] ∧
    (List.range (dW6.nMarkerVertices 0)).mapM
        (fun v => dW6.GetMarkerEddyViscositiesAt 0 v) = Except.ok [(4 : ℝ)] ∧
    ((3 : ℝ) ≠ 4) ∧
    dW6f.GetMarkerSpeedOfSound 0 = Except.ok [(10 : ℝ)] ∧
    (List.range (dW6f.nMarkerVertices 0)).mapM
        (fun v => dW6f.GetMarkerSpeedOfSoundAt 0 v) = Except.ok [(20 : ℝ)] ∧
    ((10 : ℝ) ≠ 20) :=
  ⟨rfl, rfl, by norm_num, rfl, rfl, by norm_num⟩

/-- C9: evaluation of the element wise adjoint force setter at concrete
inputs.  At vertex 1 with nDim = 2 and a values vector of the demanded
size 2, the source reads positions 2 and 3 of the vector, past its end;
at vertex 0 the read positions coincide with 0 and 1 and the tractions
stored are the vector entries. -/
theorem setMarkerAdjointForces_oob_read :
    dW9.SetMarkerAdjointForcesAt 0 1 [(5 : ℝ), 7]
        = Except.error "undefined behavior: vector index out of range" ∧
    ([(5 : ℝ), 7]).length ≤ 1 * dW9.nDim + 0 ∧
    Except.map (fun d2 => (d2.vertexTractionAdj 0 0 0, d2.vertexTractionAdj 0 0 1))
        (dW9.SetMarkerAdjointForcesAt 0 0 [(5 : ℝ), 7])
      = Except.ok ((5 : ℝ), (7 : ℝ)) :=
  ⟨rfl, by norm_num [dW9, dW], rfl⟩
